import Mathlib

/-
Verification of the per-resource deployment control loop
(pkg/deployment/deployment.go and its read-accessor file) as a shallow
embedding in Lean 4.

Conventions of the embedding:
* Go errors are values of `K8sError`, carrying the classification the
  backend attaches to them (`NotFound` / `Conflict` / other).  The spec's
  interface section states that the error classification is exact and that
  the Status Publisher and the failure-reporting path depend on it, so
  `maskAny` and message-wrapping preserve the classification.
* Calls into the API server (`Update`, `Get` of the custom resource) are
  scripted: the environment is a pair of response streams indexed by how
  many calls of that kind were issued so far.  The deployment state
  (`DState`) carries the cached API object, the in-memory status, the
  response streams and the two call counters.
* Functions that in Go live on `*Deployment` become functions
  `DState → result × DState`.
-/

/-- Classification of a backend error, as exposed by the k8sutil
helpers `IsNotFound` / `IsConflict`. -/
inductive ErrKind where
  | notFound
  | conflict
  | otherErr
  deriving DecidableEq, Repr

/-- A backend error: its classification together with its message
(the value of `err.Error()` in Go). -/
structure K8sError where
  kind : ErrKind
  msg : String
  deriving DecidableEq, Repr

/-- Embeds `k8sutil.IsNotFound`.  Modelled from the spec: the helper is not
under src/; the spec requires errors to be "classified into at least:
NotFound, Conflict, Other" with the classification exact. -/
def isNotFound (e : K8sError) : Bool :=
  match e.kind with
  | ErrKind.notFound => true
  | _ => false

/-- Embeds `k8sutil.IsConflict`.  Modelled from the spec, as for
`isNotFound`. -/
def isConflict (e : K8sError) : Bool :=
  match e.kind with
  | ErrKind.conflict => true
  | _ => false

/-- Embeds `maskAny`: error masking that keeps the error's identity
(classification and message) intact. -/
def maskAny (e : K8sError) : K8sError := e

/-- Embeds the `fmt.Errorf("failed to update ArangoDeployment status: %v", err)`
wrap in `updateCRStatus`; the message is prefixed, the classification is
preserved (the spec requires the failure-reporting path to see the exact
classification). -/
def wrapUpdateError (e : K8sError) : K8sError :=
  { e with msg := "failed to update ArangoDeployment status: " ++ e.msg }

/-- Condition flag attached to a member status.  Modelled from the spec:
"a set of timestamped condition flags (e.g. Ready)"; the timestamp plays no
role in any claim and is omitted. -/
structure MemberCondition where
  ctype : String
  cstatus : Bool
  deriving DecidableEq, Repr

/-- Embeds `api.ConditionTypeReady`. -/
def conditionTypeReady : String := "Ready"

/-- Embeds `ConditionList.IsTrue`: look the condition type up in the list
and report whether its status is true.  Modelled from the spec's data-model
section (the helper itself is not under src/). -/
def conditionsIsTrue (cl : List MemberCondition) (t : String) : Bool :=
  match cl.find? (fun c => c.ctype == t) with
  | some c => c.cstatus
  | none => false

/-- One member of a role group: identifier, assigned pod name (empty if
none), assigned persistent-volume-claim name (empty if none), and the
condition flags. -/
structure MemberStatus where
  id : String
  podName : String
  pvcName : String
  conditions : List MemberCondition
  deriving DecidableEq, Repr

/-- Role groups of a deployment. -/
inductive ServerGroup where
  | single
  | agents
  | dbservers
  | coordinators
  | syncmasters
  | syncworkers
  deriving DecidableEq, Repr

/-- Per-role-group member lists of a deployment status. -/
structure DeploymentStatusMembers where
  single : List MemberStatus
  agents : List MemberStatus
  dbservers : List MemberStatus
  coordinators : List MemberStatus
  syncmasters : List MemberStatus
  syncworkers : List MemberStatus
  deriving DecidableEq, Repr

/-- Embeds `Members.ForeachServerGroup` as the list of (group, member list)
pairs it visits.  Modelled from the spec's data-model section (the helper is
not under src/): it iterates every role group of the status. -/
def DeploymentStatusMembers.asPairs (m : DeploymentStatusMembers) :
    List (ServerGroup × List MemberStatus) :=
  [(ServerGroup.single, m.single),
   (ServerGroup.agents, m.agents),
   (ServerGroup.dbservers, m.dbservers),
   (ServerGroup.coordinators, m.coordinators),
   (ServerGroup.syncmasters, m.syncmasters),
   (ServerGroup.syncworkers, m.syncworkers)]

/-- Overall lifecycle state of a deployment
(`api.DeploymentStateRunning`, `api.DeploymentStateFailed`, ...). -/
inductive DeploymentState where
  | creating
  | running
  | failed
  deriving DecidableEq, Repr

/-- The status of the custom resource: lifecycle state, last failure
reason, per-role-group members. -/
structure DeploymentStatus where
  state : DeploymentState
  reason : String
  members : DeploymentStatusMembers
  deriving DecidableEq, Repr

/-- The external API object: its resource version (standing in for the
object meta that optimistic concurrency compares) and its status. -/
structure APIObject where
  resourceVersion : Nat
  status : DeploymentStatus
  deriving DecidableEq, Repr

/-- Scripted backend: the response to the n-th `Update` call on the custom
resource, and to the n-th `Get` call. -/
structure Backend where
  updateResp : Nat → Except K8sError APIObject
  getResp : Nat → Except K8sError APIObject

/-- The deployment's mutable state as seen by the status-publication code:
the cached API object `apiObject`, the in-memory `status`, the scripted
backend, and how many Update / Get calls were issued so far. -/
structure DState where
  apiObject : APIObject
  status : DeploymentStatus
  backend : Backend
  updateCalls : Nat
  getCalls : Nat

/-- Embeds `updateCRStatus` (deployment.go lines 235-253): if the cached
object's status equals the in-memory status, do nothing and succeed;
otherwise issue an Update; on success, replace the cached object with the
server's returned object; on error, return the wrapped, masked error. -/
def updateCRStatus (s : DState) : Except K8sError Unit × DState :=
  if s.apiObject.status = s.status then
    (Except.ok (), s)
  else
    match s.backend.updateResp s.updateCalls with
    | Except.error e =>
        (Except.error (maskAny (wrapUpdateError e)),
         { s with updateCalls := s.updateCalls + 1 })
    | Except.ok newObj =>
        (Except.ok (),
         { s with apiObject := newObj, updateCalls := s.updateCalls + 1 })

/-- Embeds the closure `op` inside `reportFailedStatus` (deployment.go
lines 268-294): set the in-memory state to Failed and try to publish; a
`NotFound` outcome counts as success; a non-`Conflict` error is returned to
the retry loop; on `Conflict`, refetch the external object (`Get`), treat
`NotFound` there as success, replace the cached object on success and
signal "retry needed" as an error. -/
def reportFailedStatusOp (s0 : DState) : Except K8sError Unit × DState :=
  let s1 := { s0 with status := { s0.status with state := DeploymentState.failed } }
  match updateCRStatus s1 with
  | (Except.ok _, s2) => (Except.ok (), s2)
  | (Except.error e, s2) =>
      if isNotFound e then (Except.ok (), s2)
      else if !(isConflict e) then (Except.error (maskAny e), s2)
      else
        match s2.backend.getResp s2.getCalls with
        | Except.error ge =>
            let s3 := { s2 with getCalls := s2.getCalls + 1 }
            if isNotFound ge then (Except.ok (), s3)
            else (Except.error (maskAny ge), s3)
        | Except.ok depl =>
            let s3 := { s2 with getCalls := s2.getCalls + 1, apiObject := depl }
            (Except.error (maskAny { kind := ErrKind.otherErr, msg := "retry needed" }),
             s3)

/-- Modelled from the spec: the Retry Engine (`retry.Retry`, not under
src/) "repeatedly invokes operation until it returns success or
maxElapsedTime has elapsed".  Wall time is abstracted into a fuel bound on
the number of re-attempts after the first; the first attempt always runs. -/
def retryRun (op : DState → Except K8sError Unit × DState) :
    Nat → DState → Except K8sError Unit × DState
  | 0, s => op s
  | Nat.succ n, s =>
      match op s with
      | (Except.ok u, s1) => (Except.ok u, s1)
      | (Except.error _, s1) => retryRun op n s1

/-- Embeds `reportFailedStatus` (deployment.go lines 264-297): run the
reporting operation under the retry engine; the retry engine's final error,
if any, is discarded. -/
def reportFailedStatus (fuel : Nat) (s : DState) : DState :=
  (retryRun reportFailedStatusOp fuel s).2

/-- Embeds `failOnError` (deployment.go lines 256-260): record the error
text as the status failure reason, then report the failed status. -/
def failOnError (e : K8sError) (fuel : Nat) (s : DState) : DState :=
  reportFailedStatus fuel { s with status := { s.status with reason := e.msg } }

/-- Outcomes of the four startup provisioning steps (`createServices`,
`createInitialMembers`, `ensurePVCs`, `ensurePods`); the step bodies are
external collaborators of the core, so each is abstracted into its result:
`none` is success, `some e` is failure with error `e`. -/
structure StepResults where
  createServices : Option K8sError
  createInitialMembers : Option K8sError
  ensurePVCs : Option K8sError
  ensurePods : Option K8sError

/-- Embeds the startup phase of `run` (deployment.go lines 148-179): the
four ensure-steps in order, each failure routed through `failOnError`
followed by `return`; on success of all four, set state Running, publish
the status best-effort (a failure is only logged) and proceed to the event
loop.  Returns the final state, the number of steps attempted, and whether
the event-serving loop was entered. -/
def runStartup (steps : StepResults) (fuel : Nat) (s : DState) :
    DState × Nat × Bool :=
  match steps.createServices with
  | some e => (failOnError e fuel s, 1, false)
  | none =>
    match steps.createInitialMembers with
    | some e => (failOnError e fuel s, 2, false)
    | none =>
      match steps.ensurePVCs with
      | some e => (failOnError e fuel s, 3, false)
      | none =>
        match steps.ensurePods with
        | some e => (failOnError e fuel s, 4, false)
        | none =>
          let s1 := { s with status := { s.status with state := DeploymentState.running } }
          let s2 := (updateCRStatus s1).2
          (s2, 4, true)

/-- Embeds the constant `eventArangoDeploymentUpdated`.  In Go,
`deploymentEventType` is a string type, so the event tag is modelled as a
string. -/
def eventArangoDeploymentUpdated : String := "ArangoDeploymentUpdated"

/-- Embeds the constant `eventPodAdded`. -/
def eventPodAdded : String := "PodAdded"

/-- Embeds the constant `eventPodUpdated`. -/
def eventPodUpdated : String := "PodUpdated"

/-- Embeds the constant `eventPodDeleted`. -/
def eventPodDeleted : String := "PodDeleted"

/-- Embeds `deploymentEvent`: the event tag (a string), the optional new
API object, and the optional pod reference (by name). -/
structure DeploymentEvent where
  etype : String
  deployment : Option APIObject
  pod : Option String
  deriving DecidableEq, Repr

/-- Embeds the event constructed by `Update` (deployment.go lines 116-121):
an `ArangoDeploymentUpdated` event carrying the new API object. -/
def updateEvent (obj : APIObject) : DeploymentEvent :=
  { etype := eventArangoDeploymentUpdated, deployment := some obj, pod := none }

/-- The state visible to the event-serving loop: the deployment state and
whether the inspect trigger has a wake-up pending. -/
structure LoopState where
  d : DState
  triggerPending : Bool

/-- Modelled from the spec: `trigger.Trigger`'s arming operation (the
trigger package is not under src/): "Arm() — idempotent; if not already
pending, marks a wake-up pending". -/
def triggerArm (ls : LoopState) : LoopState :=
  { ls with triggerPending := true }

/-- Embeds `handleArangoDeploymentUpdatedEvent` (deployment.go lines
220-223): the body is a stub that returns nil without touching any state. -/
def handleArangoDeploymentUpdatedEvent (_d : DState) (_ev : DeploymentEvent) :
    Except K8sError Unit :=
  Except.ok ()

/-- Result of handling one event taken from the event queue. -/
inductive EventOutcome where
  | continueLoop (ls : LoopState)
  | exitLoop (ls : LoopState)
  | panicked (msg : String)

/-- Embeds the `case event := <-d.eventCh` branch of `run` (deployment.go
lines 187-200): dispatch on the event tag; an updated-deployment event is
handled (and a handler error fails the deployment and exits the loop); the
three pod events arm the inspect trigger; any other tag panics. -/
def handleEvent (ls : LoopState) (ev : DeploymentEvent) (fuel : Nat) : EventOutcome :=
  if ev.etype = eventArangoDeploymentUpdated then
    match handleArangoDeploymentUpdatedEvent ls.d ev with
    | Except.ok _ => EventOutcome.continueLoop ls
    | Except.error e => EventOutcome.exitLoop { ls with d := failOnError e fuel ls.d }
  else if ev.etype = eventPodAdded ∨ ev.etype = eventPodUpdated ∨ ev.etype = eventPodDeleted then
    EventOutcome.continueLoop (triggerArm ls)
  else
    EventOutcome.panicked ("unknown event type" ++ ev.etype)

/-- Embeds `deploymentEventQueueSize` (deployment.go line 74). -/
def deploymentEventQueueSize : Nat := 100

/-- The saturation threshold of `send`: `int(float64(ecap)*0.8)`, which for
the fixed capacity 100 evaluates exactly to 80. -/
def eventQueueWarnLimit : Nat := deploymentEventQueueSize * 8 / 10

/-- Possible outcomes of one `send` call: the event was appended to the
queue (with the saturation-warning flag computed after the append), the
closed stop channel was observed (event dropped), or no select branch was
ready and the caller blocks. -/
inductive SendResult where
  | enqueued (queue : List DeploymentEvent) (warned : Bool)
  | stopObserved
  | blocked
  deriving DecidableEq, Repr

/-- Embeds `send` (deployment.go lines 131-143) under Go select semantics:
the enqueue branch is ready iff the queue is not full; the stop branch is
ready iff the stop channel is closed; when both are ready the choice is
nondeterministic, so `send` is a relation; when neither is ready the caller
blocks.  After a successful enqueue the occupancy is read back and a
warning is raised iff it exceeds `eventQueueWarnLimit`. -/
inductive SendStep : List DeploymentEvent → Bool → DeploymentEvent → SendResult → Prop where
  | enq (q : List DeploymentEvent) (stopClosed : Bool) (ev : DeploymentEvent)
      (h : q.length < deploymentEventQueueSize) :
      SendStep q stopClosed ev
        (SendResult.enqueued (q ++ [ev])
          (decide ((q ++ [ev]).length > eventQueueWarnLimit)))
  | stopBr (q : List DeploymentEvent) (ev : DeploymentEvent) :
      SendStep q true ev SendResult.stopObserved
  | block (q : List DeploymentEvent) (ev : DeploymentEvent)
      (h : deploymentEventQueueSize ≤ q.length) :
      SendStep q false ev SendResult.blocked

/-- Embeds `inspectionInterval` (deployment.go line 75): one minute,
measured here in seconds. -/
def inspectionIntervalSec : Nat := 60

/-- What one iteration of the event-serving select loop observed: an event
taken from the queue at `offset` seconds after the iteration began, a
delivery of the inspect trigger at `offset` seconds, or - when nothing else
became ready for a full interval - the firing of the `time.After` timer
that the iteration created afresh. -/
inductive LoopArrival where
  | queuedEvent (ev : DeploymentEvent) (offset : Nat)
  | triggerFired (offset : Nat)
  | timerFired
  deriving DecidableEq, Repr

/-- Well-formedness of an observation: an event or trigger delivery that
wins the select race arrived before the freshly created interval timer
fired. -/
def arrivalWF : LoopArrival → Bool
  | LoopArrival.queuedEvent _ t => t < inspectionIntervalSec
  | LoopArrival.triggerFired t => t < inspectionIntervalSec
  | LoopArrival.timerFired => true

/-- Whether the branch selected for this observation arms the inspect
trigger: pod events arm it (deployment.go line 197), the timer branch arms
it (line 214); updated-deployment events (a stub handler) and trigger
deliveries do not. -/
def iterArmsTrigger : LoopArrival → Bool
  | LoopArrival.queuedEvent ev _ =>
      ev.etype == eventPodAdded || ev.etype == eventPodUpdated || ev.etype == eventPodDeleted
  | LoopArrival.triggerFired _ => false
  | LoopArrival.timerFired => true

/-- Seconds consumed by one loop iteration.  `time.After(inspectionInterval)`
is re-created at every iteration of the select loop, so the timer branch
fires only when no other branch became ready within the full interval; an
arrival at offset t consumes t seconds, a timer firing consumes the whole
interval. -/
def iterTime : LoopArrival → Nat
  | LoopArrival.queuedEvent _ t => t
  | LoopArrival.triggerFired t => t
  | LoopArrival.timerFired => inspectionIntervalSec

/-- Total wall time covered by a trace of loop iterations. -/
def traceElapsed (tr : List LoopArrival) : Nat :=
  (tr.map iterTime).sum

/-- How many iterations of the trace armed the inspect trigger. -/
def traceArmCount (tr : List LoopArrival) : Nat :=
  (tr.filter iterArmsTrigger).length

/-- Embeds `PodCount` (read-accessor file, lines 60-72): across all server
groups, count the members whose pod name is non-empty. -/
def PodCount (st : DeploymentStatus) : Nat :=
  (st.members.asPairs.map (fun gl => (gl.2.filter (fun m => m.podName != "")).length)).sum

/-- Embeds `ReadyPodCount` (read-accessor file, lines 75-90): across all
server groups, count the members whose pod name is non-empty and whose
Ready condition is true. -/
def ReadyPodCount (st : DeploymentStatus) : Nat :=
  (st.members.asPairs.map (fun gl =>
    (gl.2.filter (fun m =>
      m.podName != "" && conditionsIsTrue m.conditions conditionTypeReady)).length)).sum

/-- All member records of a status, across all role groups (the spec-side
reading of "the number of member records (across all role groups)"). -/
def allMembers (st : DeploymentStatus) : List MemberStatus :=
  (st.members.asPairs.map (fun gl => gl.2)).flatten

/-- A Go string as `sort.Strings` sees it: a byte sequence ordered by
lexicographic byte comparison.  Storage class names are modelled this way
so that the order is fully computable in the kernel. -/
abbrev GoStr := List Nat

/-- Lexicographic byte order on Go strings, the order `sort.Strings`
establishes. -/
def lexLe : GoStr → GoStr → Bool
  | [], _ => true
  | _ :: _, [] => false
  | a :: as, b :: bs =>
      if a < b then true
      else if b < a then false
      else lexLe as bs

/-- Deployment mode.  Modelled from the spec: role groups active in a mode
("several active role groups (agents, db-servers, single servers)"); the
mode type itself is not under src/. -/
inductive DeploymentMode where
  | single
  | resilientSingle
  | cluster
  deriving DecidableEq, Repr

/-- Modelled from the spec: whether the mode runs agents. -/
def DeploymentMode.hasAgents : DeploymentMode → Bool
  | DeploymentMode.single => false
  | _ => true

/-- Modelled from the spec: whether the mode runs db-servers. -/
def DeploymentMode.hasDBServers : DeploymentMode → Bool
  | DeploymentMode.cluster => true
  | _ => false

/-- Modelled from the spec: whether the mode runs single servers. -/
def DeploymentMode.hasSingleServers : DeploymentMode → Bool
  | DeploymentMode.cluster => false
  | _ => true

/-- Per-role-group spec: the configured storage class name.  Modelled from
the spec ("per-role image/storage-class configuration"). -/
structure ServerGroupSpec where
  storageClassName : GoStr

/-- Modelled from the spec: the accessor `GetStorageClassName` of a group
spec. -/
def ServerGroupSpec.getStorageClassName (g : ServerGroupSpec) : GoStr :=
  g.storageClassName

/-- The deployment spec fields used by `StorageClasses`. -/
structure DeploymentSpec where
  mode : DeploymentMode
  agents : ServerGroupSpec
  dbservers : ServerGroupSpec
  single : ServerGroupSpec

/-- Key insertion into the `scNames` map of `StorageClasses`: a Go map is a
key set, so inserting an already-present name is a no-op. -/
def insertName (m : List GoStr) (n : GoStr) : List GoStr :=
  if n ∈ m then m else m ++ [n]

/-- Decidability of the lexicographic byte order as a relation. -/
instance lexLeDecRel : DecidableRel (fun a b : GoStr => lexLe a b = true) :=
  fun a b => inferInstanceAs (Decidable (lexLe a b = true))

/-- Embeds `sort.Strings`: sort ascending under lexicographic byte order. -/
def sortStrings (l : List GoStr) : List GoStr :=
  List.insertionSort (fun a b => lexLe a b = true) l

/-- One guarded insertion step of `StorageClasses`: insert the name into
the key set when the role group is active in the mode. -/
def maybeInsert (cond : Bool) (m : List GoStr) (n : GoStr) : List GoStr :=
  if cond then insertName m n else m

/-- The `scNames` key set built by `StorageClasses` before sorting: the
storage class name of every role group active in the mode. -/
def storageClassNameSet (spec : DeploymentSpec) : List GoStr :=
  maybeInsert spec.mode.hasSingleServers
    (maybeInsert spec.mode.hasDBServers
      (maybeInsert spec.mode.hasAgents [] spec.agents.getStorageClassName)
      spec.dbservers.getStorageClassName)
    spec.single.getStorageClassName

/-- Embeds `StorageClasses` (read-accessor file, lines 132-151): collect
into a key set the storage class name of every role group active in the
mode, then return the keys sorted. -/
def StorageClasses (spec : DeploymentSpec) : List GoStr :=
  sortStrings (storageClassNameSet spec)

/-- The first failing startup step of a step-result record, together with
its position (1 = services, 2 = initial members, 3 = PVCs, 4 = pods), in
the order `run` executes them. -/
def firstFailure (steps : StepResults) : Option (Nat × K8sError) :=
  match steps.createServices with
  | some e => some (1, e)
  | none =>
    match steps.createInitialMembers with
    | some e => some (2, e)
    | none =>
      match steps.ensurePVCs with
      | some e => some (3, e)
      | none =>
        match steps.ensurePods with
        | some e => some (4, e)
        | none => none

/-- Whether an event outcome is the abort (panic) branch of the event
dispatch. -/
def isPanicOutcome : EventOutcome → Bool
  | EventOutcome.panicked _ => true
  | _ => false

/-- Empty member set, for concrete test states. -/
def emptyMembers : DeploymentStatusMembers :=
  { single := [], agents := [], dbservers := [], coordinators := [],
    syncmasters := [], syncworkers := [] }

/-- A status with empty members and the given failure reason. -/
def statusWithReason (r : String) : DeploymentStatus :=
  { state := DeploymentState.creating, reason := r, members := emptyMembers }

/-- A concrete API object used by witnesses. -/
def sampleObj : APIObject :=
  { resourceVersion := 1, status := statusWithReason "" }

/-- A backend whose every call succeeds and returns `sampleObj`. -/
def okBackend : Backend :=
  { updateResp := fun _ => Except.ok sampleObj,
    getResp := fun _ => Except.ok sampleObj }

/-- A concrete deployment state used by witnesses. -/
def sampleDState : DState :=
  { apiObject := sampleObj, status := statusWithReason "", backend := okBackend,
    updateCalls := 0, getCalls := 0 }

/-- A concrete loop state used by witnesses. -/
def sampleLoopState : LoopState :=
  { d := sampleDState, triggerPending := false }

/-- A concrete pod-added event used by witnesses. -/
def podAddedEvent : DeploymentEvent :=
  { etype := eventPodAdded, deployment := none, pod := some "pod-1" }

/-- A concrete NotFound error, as the backend reports it once the managed
resource has been deleted externally. -/
def nfErr : K8sError :=
  { kind := ErrKind.notFound, msg := "arangodeployments \"example\" not found" }

/-- A backend whose every call fails with `nfErr`: the managed resource no
longer exists externally. -/
def nfBackend : Backend :=
  { updateResp := fun _ => Except.error nfErr,
    getResp := fun _ => Except.error nfErr }

/-- A deployment state whose in-memory status differs from the cached
object's status (so a publish issues a real write) against the gone-object
backend. -/
def nfState : DState :=
  { apiObject := { resourceVersion := 1, status := statusWithReason "old" },
    status := statusWithReason "new", backend := nfBackend,
    updateCalls := 0, getCalls := 0 }

/-- A concrete Conflict error (optimistic-concurrency version mismatch). -/
def conflictErr : K8sError :=
  { kind := ErrKind.conflict, msg := "the object has been modified" }

/-- The external object as refetched after a conflict. -/
def deplRefetched : APIObject :=
  { resourceVersion := 7, status := statusWithReason "refetched" }

/-- The object the backend returns for the successful second update. -/
def objRefreshed : APIObject :=
  { resourceVersion := 8,
    status := { statusWithReason "boom" with state := DeploymentState.failed } }

/-- A backend that rejects the first update with a Conflict and accepts the
second, and serves `deplRefetched` on Get: the C1 scenario. -/
def c1Backend : Backend :=
  { updateResp := fun n => if n = 0 then Except.error conflictErr else Except.ok objRefreshed,
    getResp := fun _ => Except.ok deplRefetched }

/-- The deployment state at the start of the C1 scenario. -/
def c1Start : DState :=
  { apiObject := { resourceVersion := 5, status := statusWithReason "old" },
    status := statusWithReason "boom", backend := c1Backend,
    updateCalls := 0, getCalls := 0 }

/-- A concrete startup error for the C3 witness. -/
def pvcErr : K8sError :=
  { kind := ErrKind.otherErr, msg := "no storage class available" }

/-- Step results where the PVC step fails and the earlier steps succeed. -/
def badSteps : StepResults :=
  { createServices := none, createInitialMembers := none,
    ensurePVCs := some pvcErr, ensurePods := none }

/-- A concrete updated-deployment event. -/
def updEvt : DeploymentEvent := updateEvent sampleObj

/-- A loop trace consisting of two updated-deployment events, each winning
the select race 30 seconds into its iteration: one full interval of wall
time with no timer firing. -/
def cexTrace : List LoopArrival :=
  [LoopArrival.queuedEvent updEvt 30, LoopArrival.queuedEvent updEvt 30]

/-- A loop trace of two quiet iterations: only the interval timer fires. -/
def quietTrace : List LoopArrival :=
  [LoopArrival.timerFired, LoopArrival.timerFired]

/-- The member record of the C9 scenario: pod assigned, no conditions. -/
def memberWithPod (i pn : String) : MemberStatus :=
  { id := i, podName := pn, pvcName := "", conditions := [] }

/-- The C9 scenario status: three members in one role group, all with
assigned pod names, no conditions set. -/
def scenarioStatus : DeploymentStatus :=
  { state := DeploymentState.running, reason := "",
    members := { emptyMembers with agents :=
      [memberWithPod "AGNT-1" "example-agnt-1",
       memberWithPod "AGNT-2" "example-agnt-2",
       memberWithPod "AGNT-3" "example-agnt-3"] } }

/-- The byte string "fast". -/
def fastName : GoStr := [102, 97, 115, 116]

/-- A cluster-mode spec in which both active storage-bearing role groups
(agents and db-servers) share the storage class name "fast". -/
def dupSpec : DeploymentSpec :=
  { mode := DeploymentMode.cluster, agents := { storageClassName := fastName },
    dbservers := { storageClassName := fastName },
    single := { storageClassName := [115, 108, 111, 119] } }

theorem updateCRStatus_status (s : DState) :
    ((updateCRStatus s).2).status = s.status := by
  unfold updateCRStatus
  split
  · rfl
  · split <;> rfl

theorem updateCRStatus_backend (s : DState) :
    ((updateCRStatus s).2).backend = s.backend := by
  unfold updateCRStatus
  split
  · rfl
  · split <;> rfl

theorem reportFailedStatusOp_status (s : DState) :
    ((reportFailedStatusOp s).2).status
      = { s.status with state := DeploymentState.failed } := by
  unfold reportFailedStatusOp
  dsimp only
  split
  case _ u s2 heq =>
    have h := congrArg (fun p => (Prod.snd p).status) heq
    simp only [updateCRStatus_status] at h
    simpa using h.symm
  case _ e s2 heq =>
    have h := congrArg (fun p => (Prod.snd p).status) heq
    simp only [updateCRStatus_status] at h
    split
    · simpa using h.symm
    · split
      · simpa using h.symm
      · split
        · split <;> simpa using h.symm
        · simpa using h.symm

theorem retryRun_reportFailed_status (fuel : Nat) :
    ∀ s : DState,
      ((retryRun reportFailedStatusOp fuel s).2).status
        = { s.status with state := DeploymentState.failed } := by
  induction fuel with
  | zero => exact fun s => reportFailedStatusOp_status s
  | succ n ih =>
    intro s
    unfold retryRun
    split
    case _ u s1 heq =>
      have h := congrArg (fun p => (Prod.snd p).status) heq
      simp only [reportFailedStatusOp_status] at h
      simpa using h.symm
    case _ e s1 heq =>
      have h := congrArg (fun p => (Prod.snd p).status) heq
      simp only [reportFailedStatusOp_status] at h
      rw [ih s1, ← h]

theorem reportFailedStatus_status (fuel : Nat) (s : DState) :
    (reportFailedStatus fuel s).status
      = { s.status with state := DeploymentState.failed } := by
  unfold reportFailedStatus
  exact retryRun_reportFailed_status fuel s

theorem failOnError_status (e : K8sError) (fuel : Nat) (s : DState) :
    (failOnError e fuel s).status
      = { s.status with state := DeploymentState.failed, reason := e.msg } := by
  unfold failOnError
  rw [reportFailedStatus_status]

/-- C4: handling a dependent-pod change event (pod added, updated or
deleted) only arms the debounced inspect trigger; the in-memory status and
the cached external object (both inside `ls.d`, which is returned
unchanged) are untouched, and the loop continues. -/
theorem podEvent_arms_trigger_only (ls : LoopState) (ev : DeploymentEvent) (fuel : Nat)
    (h : ev.etype = eventPodAdded ∨ ev.etype = eventPodUpdated ∨ ev.etype = eventPodDeleted) :
    handleEvent ls ev fuel = EventOutcome.continueLoop { d := ls.d, triggerPending := true } := by
  have hne : ¬ ev.etype = eventArangoDeploymentUpdated := by
    rcases h with h | h | h <;> rw [h] <;> decide
  rw [handleEvent, if_neg hne, if_pos h]
  rfl

/-- Witness for C4: a concrete pod-added event against a concrete loop
state. -/
theorem podEvent_arms_trigger_only_witness :
    handleEvent sampleLoopState podAddedEvent 0
      = EventOutcome.continueLoop { d := sampleLoopState.d, triggerPending := true } :=
  podEvent_arms_trigger_only sampleLoopState podAddedEvent 0 (Or.inl rfl)

/-- C5: the event dispatch reaches its abort (panic) branch exactly on the
tags outside the four defined event types: for defined tags the branch is
unreachable, for any other tag the loop aborts the process. -/
theorem unknown_event_tag_aborts (ls : LoopState) (ev : DeploymentEvent) (fuel : Nat) :
    isPanicOutcome (handleEvent ls ev fuel) = true ↔
      ev.etype ∉ [eventArangoDeploymentUpdated, eventPodAdded, eventPodUpdated, eventPodDeleted] := by
  by_cases h1 : ev.etype = eventArangoDeploymentUpdated
  · simp [handleEvent, h1, handleArangoDeploymentUpdatedEvent, isPanicOutcome]
  · by_cases h2 : ev.etype = eventPodAdded ∨ ev.etype = eventPodUpdated ∨ ev.etype = eventPodDeleted
    · rw [handleEvent, if_neg h1, if_pos h2]
      have hmem : ev.etype ∈ [eventArangoDeploymentUpdated, eventPodAdded, eventPodUpdated, eventPodDeleted] := by
        rcases h2 with h | h | h <;> simp [h]
      simp [isPanicOutcome, triggerArm, hmem]
    · rw [handleEvent, if_neg h1, if_neg h2]
      push_neg at h2
      obtain ⟨g1, g2, g3⟩ := h2
      simp [isPanicOutcome, h1, g1, g2, g3]

/-- C8: after `Delete()` has closed the stop signal, `send` never blocks
(one select branch is always ready), and an updated-deployment event - the
only kind `Update` enqueues - is processed by the loop without any change
to the deployment state, in particular without mutating the status. -/
theorem update_after_delete_noop (q : List DeploymentEvent) (ev : DeploymentEvent)
    (r : SendResult) (ls : LoopState) (obj : APIObject) (fuel : Nat)
    (hstep : SendStep q true ev r) :
    r ≠ SendResult.blocked ∧
    handleEvent ls (updateEvent obj) fuel = EventOutcome.continueLoop ls := by
  constructor
  · cases hstep <;> simp
  · rfl

/-- Witness for C8: the closed stop channel observed by a concrete send,
and a concrete update event processed without state change. -/
theorem update_after_delete_noop_witness :
    SendResult.stopObserved ≠ SendResult.blocked ∧
    handleEvent sampleLoopState (updateEvent sampleObj) 0
      = EventOutcome.continueLoop sampleLoopState :=
  update_after_delete_noop [] updEvt SendResult.stopObserved sampleLoopState sampleObj 0
    (SendStep.stopBr [] updEvt)

/-- C6: on a running deployment (stop signal open), once capacity is
available a send enqueues the event - never drops it - and raises the
saturation warning if and only if, after the enqueue, occupancy exceeds 80%
of the fixed capacity of 100; the warning is only a flag and never affects
the queue content. -/
theorem send_enqueues_and_warns (q : List DeploymentEvent) (ev : DeploymentEvent)
    (r : SendResult) (hcap : q.length < deploymentEventQueueSize)
    (hstep : SendStep q false ev r) :
    deploymentEventQueueSize = 100 ∧ eventQueueWarnLimit = 80 ∧
    ∃ w, r = SendResult.enqueued (q ++ [ev]) w ∧
      (w = true ↔ q.length + 1 > eventQueueWarnLimit) := by
  refine ⟨rfl, rfl, ?_⟩
  cases hstep with
  | enq _ _ h =>
      refine ⟨_, rfl, ?_⟩
      simp [List.length_append]
  | block _ h => exact absurd hcap (Nat.not_lt.mpr h)

/-- Witness for C6: a concrete send into an empty queue. -/
theorem send_enqueues_and_warns_witness :
    deploymentEventQueueSize = 100 ∧ eventQueueWarnLimit = 80 ∧
    ∃ w, SendResult.enqueued ([] ++ [podAddedEvent])
        (decide ((([] : List DeploymentEvent) ++ [podAddedEvent]).length > eventQueueWarnLimit))
        = SendResult.enqueued ([] ++ [podAddedEvent]) w ∧
      (w = true ↔ ([] : List DeploymentEvent).length + 1 > eventQueueWarnLimit) :=
  send_enqueues_and_warns [] podAddedEvent _ (by decide)
    (SendStep.enq [] false podAddedEvent (by decide))

theorem length_filter_and_le {α : Type} (l : List α) (p q : α → Bool) :
    (l.filter (fun a => p a && q a)).length ≤ (l.filter p).length := by
  induction l with
  | nil => simp
  | cons a t ih =>
      by_cases hp : p a = true
      · by_cases hq : q a = true
        · simp [List.filter_cons, hp, hq]
          omega
        · simp [List.filter_cons, hp, hq]
          exact Nat.le_succ_of_le ih
      · simp [List.filter_cons, hp]
        exact ih

/-- C9: for every status, `PodCount` is exactly the number of member
records across all role groups with a non-empty pod name, `ReadyPodCount`
is exactly the number of those that in addition have a true Ready
condition, `ReadyPodCount` never exceeds `PodCount`; and on the concrete
scenario of three members with assigned pod names and no conditions the
counts are 3 and 0. -/
theorem podCount_readyPodCount_spec :
    (∀ st : DeploymentStatus,
      PodCount st = ((allMembers st).filter (fun m => m.podName != "")).length ∧
      ReadyPodCount st = ((allMembers st).filter (fun m =>
        m.podName != "" && conditionsIsTrue m.conditions conditionTypeReady)).length ∧
      ReadyPodCount st ≤ PodCount st) ∧
    PodCount scenarioStatus = 3 ∧ ReadyPodCount scenarioStatus = 0 := by
  have hmain : ∀ st : DeploymentStatus,
      PodCount st = ((allMembers st).filter (fun m => m.podName != "")).length ∧
      ReadyPodCount st = ((allMembers st).filter (fun m =>
        m.podName != "" && conditionsIsTrue m.conditions conditionTypeReady)).length ∧
      ReadyPodCount st ≤ PodCount st := by
    intro st
    have h1 : PodCount st = ((allMembers st).filter (fun m => m.podName != "")).length := by
      simp [PodCount, allMembers, DeploymentStatusMembers.asPairs, List.filter_append,
        List.length_append]
    have h2 : ReadyPodCount st = ((allMembers st).filter (fun m =>
        m.podName != "" && conditionsIsTrue m.conditions conditionTypeReady)).length := by
      simp [ReadyPodCount, allMembers, DeploymentStatusMembers.asPairs, List.filter_append,
        List.length_append]
    refine ⟨h1, h2, ?_⟩
    rw [h1, h2]
    exact length_filter_and_le (allMembers st) _ _
  exact ⟨hmain, by decide, by decide⟩

/-- C3: if startup step i (1 = services, 2 = initial members, 3 = PVCs,
4 = pods) is the first to fail, the loop runs exactly the steps up to and
including i, routes the error through `failOnError` (recording the error
text as the status failure reason and setting the state to Failed), never
reaches Running, and never enters the event-serving loop. -/
theorem startup_failFast (steps : StepResults) (fuel : Nat) (s : DState)
    (i : Nat) (e : K8sError) (h : firstFailure steps = some (i, e)) :
    runStartup steps fuel s = (failOnError e fuel s, i, false) ∧
    (failOnError e fuel s).status.reason = e.msg ∧
    (failOnError e fuel s).status.state = DeploymentState.failed ∧
    (failOnError e fuel s).status.state ≠ DeploymentState.running := by
  refine ⟨?_, by simp [failOnError_status], by simp [failOnError_status],
    by simp [failOnError_status]⟩
  obtain ⟨a, b, c, d⟩ := steps
  cases a <;> cases b <;> cases c <;> cases d <;>
    simp only [firstFailure] at h <;> cases h <;> simp [runStartup]

/-- Witness for C3: the PVC step fails concretely; the services and member
steps ran, the pod step did not, the loop was not entered. -/
theorem startup_failFast_witness :
    runStartup badSteps 1 sampleDState = (failOnError pvcErr 1 sampleDState, 3, false) ∧
    (failOnError pvcErr 1 sampleDState).status.reason = pvcErr.msg ∧
    (failOnError pvcErr 1 sampleDState).status.state = DeploymentState.failed ∧
    (failOnError pvcErr 1 sampleDState).status.state ≠ DeploymentState.running :=
  startup_failFast badSteps 1 sampleDState 3 pvcErr rfl

theorem retryRun_succ (op : DState → Except K8sError Unit × DState) (n : Nat) (s : DState) :
    retryRun op (n + 1) s =
      match op s with
      | (Except.ok u, s1) => (Except.ok u, s1)
      | (Except.error _, s1) => retryRun op n s1 := rfl

/-- C1: when the status publish fails with a Conflict exactly once (first
update rejected, refetch succeeds, second update succeeds), the failed
status publisher performs exactly one refetch (`getCalls` goes to 1),
replaces the cached `apiObject` with the refetched object, signals retry to
the retry loop (the attempt returns the "retry needed" error), and under
the retry engine the publish ends in success with the refreshed object
cached; the conflict is never surfaced as a hard failure. -/
theorem conflict_once_then_success (obj depl newObj : APIObject) (st : DeploymentStatus)
    (bk : Backend) (e0 : K8sError) (n : Nat)
    (hupd0 : bk.updateResp 0 = Except.error e0)
    (hconf : e0.kind = ErrKind.conflict)
    (hget0 : bk.getResp 0 = Except.ok depl)
    (hupd1 : bk.updateResp 1 = Except.ok newObj)
    (h1 : obj.status ≠ { st with state := DeploymentState.failed })
    (h2 : depl.status ≠ { st with state := DeploymentState.failed }) :
    (reportFailedStatusOp (DState.mk obj st bk 0 0)).2.apiObject = depl ∧
    (reportFailedStatusOp (DState.mk obj st bk 0 0)).2.getCalls = 1 ∧
    (∃ m, (reportFailedStatusOp (DState.mk obj st bk 0 0)).1
        = Except.error { kind := ErrKind.otherErr, msg := m }) ∧
    retryRun reportFailedStatusOp (n + 1) (DState.mk obj st bk 0 0)
      = (Except.ok (),
         DState.mk newObj { st with state := DeploymentState.failed } bk 2 1) := by
  have hop1 : reportFailedStatusOp (DState.mk obj st bk 0 0)
      = (Except.error { kind := ErrKind.otherErr, msg := "retry needed" },
         DState.mk depl { st with state := DeploymentState.failed } bk 1 1) := by
    simp [reportFailedStatusOp, updateCRStatus, hupd0, hget0, isNotFound, isConflict,
      maskAny, wrapUpdateError, hconf, h1]
  have hop2 : reportFailedStatusOp
        (DState.mk depl { st with state := DeploymentState.failed } bk 1 1)
      = (Except.ok (), DState.mk newObj { st with state := DeploymentState.failed } bk 2 1) := by
    simp [reportFailedStatusOp, updateCRStatus, hupd1, h2]
  refine ⟨by rw [hop1], by rw [hop1], ⟨"retry needed", by rw [hop1]⟩, ?_⟩
  rw [retryRun_succ, hop1]
  dsimp only
  cases n with
  | zero => exact hop2
  | succ m =>
      rw [retryRun_succ, hop2]

/-- Witness for C1: the concrete conflict-once backend. -/
theorem conflict_once_then_success_witness :
    (reportFailedStatusOp c1Start).2.apiObject = deplRefetched ∧
    (reportFailedStatusOp c1Start).2.getCalls = 1 ∧
    (∃ m, (reportFailedStatusOp c1Start).1
        = Except.error { kind := ErrKind.otherErr, msg := m }) ∧
    retryRun reportFailedStatusOp 1 c1Start
      = (Except.ok (),
         DState.mk objRefreshed
           { statusWithReason "boom" with state := DeploymentState.failed } c1Backend 2 1) :=
  conflict_once_then_success
    { resourceVersion := 5, status := statusWithReason "old" }
    deplRefetched objRefreshed (statusWithReason "boom") c1Backend conflictErr 0
    rfl rfl rfl rfl (by decide) (by decide)

/-- Counterexample to C2 as stated: on the ordinary status update path
(`updateCRStatus`), a backend NotFound is not treated as success: at this
concrete state the backend reports NotFound for the update and the publish
returns an error to its caller. -/
theorem updateCRStatus_notFound_is_error :
    nfState.backend.updateResp 0 = Except.error nfErr ∧
    isNotFound nfErr = true ∧
    (updateCRStatus nfState).1 = Except.error (wrapUpdateError nfErr) ∧
    ¬ (updateCRStatus nfState).1 = Except.ok () := by
  refine ⟨rfl, rfl, rfl, ?_⟩
  intro h
  rw [show (updateCRStatus nfState).1 = Except.error (wrapUpdateError nfErr) from rfl] at h
  exact Except.noConfusion h

/-- C2 amended: a NotFound failure of the status write is treated as
success by the failure-reporting publisher (`reportFailedStatus`'s
operation returns success whether or not a write was needed), while the
ordinary `updateCRStatus` path propagates the NotFound as an error to its
caller (shown by the counterexample). -/
theorem notFound_success_in_failure_reporting (obj : APIObject) (st : DeploymentStatus)
    (bk : Backend) (e0 : K8sError) (uc gc : Nat)
    (hupd : bk.updateResp uc = Except.error e0)
    (hnf : e0.kind = ErrKind.notFound) :
    (reportFailedStatusOp (DState.mk obj st bk uc gc)).1 = Except.ok () := by
  by_cases heq : obj.status = { st with state := DeploymentState.failed }
  · simp [reportFailedStatusOp, updateCRStatus, heq]
  · simp [reportFailedStatusOp, updateCRStatus, heq, hupd, isNotFound, maskAny,
      wrapUpdateError, hnf]

/-- Witness for the amended C2: the concrete gone-object backend. -/
theorem notFound_success_in_failure_reporting_witness :
    (reportFailedStatusOp
      (DState.mk { resourceVersion := 1, status := statusWithReason "old" }
        (statusWithReason "new") nfBackend 0 0)).1 = Except.ok () :=
  notFound_success_in_failure_reporting
    { resourceVersion := 1, status := statusWithReason "old" }
    (statusWithReason "new") nfBackend nfErr 0 0 rfl rfl

/-- Counterexample to C7 as stated: a well-formed loop trace covering one
full inspection interval of wall time, made of updated-deployment events
each winning the select race 30 seconds into its iteration; because
`time.After` is re-created at every iteration, the timer branch never runs
and the trigger is never armed during the interval. -/
theorem timer_starved_by_events :
    (∀ a ∈ cexTrace, arrivalWF a = true) ∧
    traceElapsed cexTrace = inspectionIntervalSec ∧
    traceArmCount cexTrace = 0 := by decide

theorem traceArmCount_quiet :
    ∀ tr : List LoopArrival, (∀ a ∈ tr, a = LoopArrival.timerFired) →
      traceArmCount tr = tr.length := by
  intro tr
  induction tr with
  | nil => intro _; rfl
  | cons a t ih =>
      intro h
      have ha : a = LoopArrival.timerFired := h a (List.mem_cons_self a t)
      subst ha
      have ht := ih (fun b hb => h b (List.mem_cons_of_mem _ hb))
      simp only [traceArmCount, List.filter_cons] at ht ⊢
      simp [iterArmsTrigger, ht]

theorem traceElapsed_quiet :
    ∀ tr : List LoopArrival, (∀ a ∈ tr, a = LoopArrival.timerFired) →
      traceElapsed tr = tr.length * inspectionIntervalSec := by
  intro tr
  induction tr with
  | nil => intro _; rfl
  | cons a t ih =>
      intro h
      have ha : a = LoopArrival.timerFired := h a (List.mem_cons_self a t)
      subst ha
      have ht := ih (fun b hb => h b (List.mem_cons_of_mem _ hb))
      simp only [traceElapsed, List.map_cons, List.sum_cons, inspectionIntervalSec,
        iterTime, List.length_cons] at ht ⊢
      omega

/-- C7 amended: the timer branch, whenever selected, unconditionally arms
the inspect trigger, and over a quiet trace (no event or trigger arrival
ever wins the race) it is selected every iteration: the trigger is armed
once per elapsed interval.  The timer is, however, re-created by every loop
iteration, so it is not independent of other loop activity: a continuous
stream of events arriving more often than the interval postpones it
indefinitely (see the counterexample trace). -/
theorem timer_arms_when_quiet (tr : List LoopArrival)
    (h : ∀ a ∈ tr, a = LoopArrival.timerFired) :
    iterArmsTrigger LoopArrival.timerFired = true ∧
    traceArmCount tr = tr.length ∧
    traceElapsed tr = tr.length * inspectionIntervalSec :=
  ⟨rfl, traceArmCount_quiet tr h, traceElapsed_quiet tr h⟩

/-- Witness for the amended C7: two quiet iterations. -/
theorem timer_arms_when_quiet_witness :
    iterArmsTrigger LoopArrival.timerFired = true ∧
    traceArmCount quietTrace = quietTrace.length ∧
    traceElapsed quietTrace = quietTrace.length * inspectionIntervalSec :=
  timer_arms_when_quiet quietTrace (by decide)

theorem lexLe_total : ∀ a b : GoStr, lexLe a b = true ∨ lexLe b a = true
  | [], _ => Or.inl rfl
  | _ :: _, [] => Or.inr rfl
  | a :: as, b :: bs => by
      rcases Nat.lt_trichotomy a b with h | h | h
      · exact Or.inl (by simp [lexLe, h])
      · subst h
        rcases lexLe_total as bs with ih | ih
        · exact Or.inl (by simp [lexLe, ih])
        · exact Or.inr (by simp [lexLe, ih])
      · exact Or.inr (by simp [lexLe, h])

theorem lexLe_trans :
    ∀ a b c : GoStr, lexLe a b = true → lexLe b c = true → lexLe a c = true
  | [], _, _, _, _ => rfl
  | _ :: _, [], _, hab, _ => by simp [lexLe] at hab
  | _ :: _, _ :: _, [], _, hbc => by simp [lexLe] at hbc
  | a :: as, b :: bs, c :: cs, hab, hbc => by
      rcases Nat.lt_trichotomy a b with h1 | h1 | h1
      · rcases Nat.lt_trichotomy b c with h2 | h2 | h2
        · have hac : a < c := Nat.lt_trans h1 h2
          simp [lexLe, hac]
        · subst h2
          simp [lexLe, h1]
        · exfalso
          have hnb : ¬ b < c := Nat.lt_asymm h2
          simp [lexLe, hnb, h2] at hbc
      · subst h1
        have hab' : lexLe as bs = true := by simpa [lexLe] using hab
        rcases Nat.lt_trichotomy a c with h2 | h2 | h2
        · simp [lexLe, h2]
        · subst h2
          have hbc' : lexLe bs cs = true := by simpa [lexLe] using hbc
          simpa [lexLe] using lexLe_trans as bs cs hab' hbc'
        · exfalso
          have hnb : ¬ a < c := Nat.lt_asymm h2
          simp [lexLe, hnb, h2] at hbc
      · exfalso
        have hna : ¬ a < b := Nat.lt_asymm h1
        simp [lexLe, hna, h1] at hab

theorem insertName_nodup (m : List GoStr) (n : GoStr) (h : m.Nodup) :
    (insertName m n).Nodup := by
  unfold insertName
  split
  · exact h
  · simp_all [List.nodup_append]

theorem maybeInsert_nodup (c : Bool) (m : List GoStr) (n : GoStr) (h : m.Nodup) :
    (maybeInsert c m n).Nodup := by
  cases c
  · exact h
  · exact insertName_nodup m n h

theorem storageClassNameSet_nodup (spec : DeploymentSpec) :
    (storageClassNameSet spec).Nodup := by
  unfold storageClassNameSet
  exact maybeInsert_nodup _ _ _
    (maybeInsert_nodup _ _ _ (maybeInsert_nodup _ _ _ List.nodup_nil))

/-- C10: for every deployment spec, `StorageClasses` is sorted ascending in
lexicographic byte order and free of duplicates; concretely, a cluster spec
whose agents and db-servers share the storage class name "fast" yields that
name exactly once. -/
theorem storageClasses_sorted_nodup :
    (∀ spec : DeploymentSpec,
      List.Sorted (fun a b : GoStr => lexLe a b = true) (StorageClasses spec) ∧
      (StorageClasses spec).Nodup) ∧
    StorageClasses dupSpec = [fastName] := by
  refine ⟨fun spec => ?_, by decide⟩
  haveI ht : IsTotal GoStr (fun a b : GoStr => lexLe a b = true) := ⟨lexLe_total⟩
  haveI htr : IsTrans GoStr (fun a b : GoStr => lexLe a b = true) := ⟨lexLe_trans⟩
  constructor
  · exact List.sorted_insertionSort _ _
  · exact ((List.perm_insertionSort _ _).nodup_iff).mpr (storageClassNameSet_nodup spec)
